import Mathlib

/-!
Shallow embedding of the `TaskScheduler` in `src/cors_config.py`.

Timestamps and durations are modelled as integers (`Int`), task ids as the
strings the source builds in `add_task`.  The thread-safe
`queue.PriorityQueue` is modelled as a list of `(priority, task)` pairs from
which `popMin` removes an entry with the smallest priority key (Python's heap
pops a minimal tuple; among equal keys the heap order is unspecified, the
model takes the leftmost minimum).  The `running_tasks` dict is an
association list, and the two bounded `deque(maxlen=...)` stores are lists
with oldest-first eviction.  The body of one iteration of
`TaskScheduler.worker_function` is embedded as a function producing the
sequence of shared-state snapshots after each mutation of shared state, so
that interleaving-visible intermediate states can be inspected.  The task
body (`execute_task`, called inside `try:`) is a parameter of type
`Task → Except String String`, with `Except.error` standing for a raised
exception; the source's concrete `execute_task` is embedded separately with
the random draw abstracted as a `Nat` argument.
-/

namespace CorsConfig

/-- Embeds `TaskScheduler.Task.__init__` (src/cors_config.py lines 21-34).
`worker_id` is the attribute set later in `worker_function` (line 87). -/
structure Task where
  task_id : String
  name : String
  priority : Int
  scheduled_time : Int
  created_at : Int
  started_at : Option Int
  completed_at : Option Int
  status : String
  result : Option String
  error : Option String
  retries : Nat
  max_retries : Nat
  worker_id : Option Nat
deriving DecidableEq, Repr

/-- Embeds the dictionary built by `Task.to_dict` (lines 39-48). -/
structure TaskDict where
  id : String
  name : String
  priority : Int
  scheduled : Int
  status : String
  retries : Nat
  duration : Option Int
deriving DecidableEq, Repr

/-- `Task.to_dict` (lines 39-48): `duration` is present only when both
`completed_at` and `started_at` are set. -/
def Task.to_dict (t : Task) : TaskDict :=
  { id := t.task_id
    name := t.name
    priority := t.priority
    scheduled := t.scheduled_time
    status := t.status
    retries := t.retries
    duration :=
      match t.completed_at, t.started_at with
      | some c, some s => some (c - s)
      | _, _ => none }

/-- The record appended to `completed_tasks` (lines 97-101). -/
structure CompletedRec where
  task : TaskDict
  result : String
  worker : Nat
deriving DecidableEq, Repr

/-- The shared mutable state of a `TaskScheduler` (lines 11-19): the priority
queue, the running dict, the two bounded terminal stores and the id counter. -/
structure SchedState where
  task_queue : List (Int × Task)
  running_tasks : List (String × Task)
  completed_tasks : List CompletedRec
  failed_tasks : List TaskDict
  task_counter : Nat
deriving DecidableEq, Repr

/-- Removes an entry with minimal priority key from the queue, as
`PriorityQueue.get` pops a minimal heap element; returns `none` on an empty
queue (the `queue.Empty` case).  Among equal keys the leftmost is taken. -/
def popMin : List (Int × Task) → Option ((Int × Task) × List (Int × Task))
  | [] => none
  | e :: rest =>
    match popMin rest with
    | none => some (e, [])
    | some (m, rest2) =>
      if e.1 ≤ m.1 then some (e, rest)
      else some (m, e :: rest2)

/-- `running_tasks[k] = v` on a Python dict: overwrite in place if the key is
present, otherwise append. -/
def dictInsert (d : List (String × Task)) (k : String) (v : Task) :
    List (String × Task) :=
  if d.any (fun e => e.1 == k) then
    d.map (fun e => if e.1 == k then (k, v) else e)
  else d ++ [(k, v)]

/-- `if k in running_tasks: del running_tasks[k]` (lines 115-116). -/
def dictErase (d : List (String × Task)) (k : String) : List (String × Task) :=
  d.filter (fun e => e.1 != k)

/-- `deque(maxlen=cap).append x`: append, evicting oldest entries beyond the
capacity. -/
def dequeAppend (cap : Nat) (d : List α) (x : α) : List α :=
  let d2 := d ++ [x]
  if d2.length > cap then d2.drop (d2.length - cap) else d2

/-- Whether a task id occurs in the queue. -/
def idInQueue (q : List (Int × Task)) (i : String) : Bool :=
  q.any (fun e => e.2.task_id == i)

/-- Whether a task id is a key of the running dict. -/
def idInRunning (d : List (String × Task)) (i : String) : Bool :=
  d.any (fun e => e.1 == i)

/-- `TaskScheduler.add_task` (lines 50-58): increments the counter, builds a
fresh `Task` with `scheduled_time = now + delay` and the defaults of
`Task.__init__`, and puts `(priority, task)` on the queue.  No validation is
performed on `priority` or `delay`. -/
def add_task (st : SchedState) (now : Int) (name : String) (priority : Int)
    (delay : Int) : String × SchedState :=
  let counter := st.task_counter + 1
  let task_id := "task_" ++ toString counter ++ "_" ++ toString now
  let scheduled_time := now + delay
  let task : Task :=
    { task_id := task_id
      name := name
      priority := priority
      scheduled_time := scheduled_time
      created_at := now
      started_at := none
      completed_at := none
      status := "pending"
      result := none
      error := none
      retries := 0
      max_retries := 3
      worker_id := none }
  (task_id,
   { st with
      task_counter := counter
      task_queue := st.task_queue ++ [(priority, task)] })

/-- One iteration of the loop body of `TaskScheduler.worker_function`
(lines 76-121), as the sequence of shared-state snapshots after each mutation
of shared state, in program order:

* after `task_queue.get` (line 78);
* ineligible path (lines 80-83): after the re-`put`;
* eligible path: after `running_tasks[task.task_id] = task` (line 89), then
  - success (lines 92-101): after `completed_tasks.append`, then after the
    `finally` deletion from `running_tasks`;
  - failure with `retries < max_retries` after the increment (lines 103-110):
    after `task_queue.put((priority, task))` — note the key is the original
    dequeue `priority`, while `task.priority` was updated to
    `max(1, task.priority - 1)` — then after the `finally` deletion;
  - failure with retries exhausted (lines 111-112): after
    `failed_tasks.append(task.to_dict())`, then after the `finally` deletion.

An empty queue (`queue.Empty`) gives the empty trace: no state changes. -/
def worker_function_trace (exec : Task → Except String String) (wid : Nat)
    (now : Int) (st : SchedState) : List SchedState :=
  match popMin st.task_queue with
  | none => []
  | some ((priority, task), rest) =>
    let stGot := { st with task_queue := rest }
    if task.scheduled_time > now then
      [stGot, { stGot with task_queue := stGot.task_queue ++ [(priority, task)] }]
    else
      let task1 :=
        { task with
            status := "running", started_at := some now, worker_id := some wid }
      let stRun :=
        { stGot with
            running_tasks := dictInsert stGot.running_tasks task1.task_id task1 }
      match exec task1 with
      | .ok result =>
        let task2 :=
          { task1 with
              status := "completed", completed_at := some now,
              result := some result }
        let stComp :=
          { stRun with
              completed_tasks :=
                dequeAppend 1000 stRun.completed_tasks
                  { task := task2.to_dict, result := result, worker := wid } }
        let stFin :=
          { stComp with
              running_tasks := dictErase stComp.running_tasks task2.task_id }
        [stGot, stRun, stComp, stFin]
      | .error e =>
        let task2 :=
          { task1 with
              status := "failed", error := some e, retries := task1.retries + 1 }
        if task2.retries < task2.max_retries then
          let task3 := { task2 with priority := max 1 (task2.priority - 1) }
          let stReq :=
            { stRun with task_queue := stRun.task_queue ++ [(priority, task3)] }
          let stFin :=
            { stReq with
                running_tasks := dictErase stReq.running_tasks task3.task_id }
          [stGot, stRun, stReq, stFin]
        else
          let stPerm :=
            { stRun with
                failed_tasks := dequeAppend 500 stRun.failed_tasks task2.to_dict }
          let stFin :=
            { stPerm with
                running_tasks := dictErase stPerm.running_tasks task2.task_id }
          [stGot, stRun, stPerm, stFin]

/-- The state at the end of one `worker_function` iteration: the last snapshot
of the trace (the unchanged state when the queue was empty). -/
def worker_function_step (exec : Task → Except String String) (wid : Nat)
    (now : Int) (st : SchedState) : SchedState :=
  (worker_function_trace exec wid now st).getLastD st

/-- Whether one `worker_function` iteration dispatches a task, i.e. reaches
line 85: the popped minimal-key entry exists and `scheduled_time ≤ now`.
The decision (lines 78-83) does not depend on the task body or the worker. -/
def worker_step_dispatched (now : Int) (st : SchedState) : Bool :=
  match popMin st.task_queue with
  | none => false
  | some ((_, task), _) => decide (¬ task.scheduled_time > now)

/-- Iterates `worker_function_step` `n` times with a fixed clock, also
counting how many iterations dispatched a task (handler invocations). -/
def runWorker (exec : Task → Except String String) (wid : Nat) (now : Int) :
    Nat → SchedState → SchedState × Nat
  | 0, st => (st, 0)
  | n + 1, st =>
    let c := if worker_step_dispatched now st then 1 else 0
    let (st', k) := runWorker exec wid now n (worker_function_step exec wid now st)
    (st', c + k)

/-- `a` occurs as a contiguous run at the start of `b`. -/
def listIsPrefixOf : List Char → List Char → Bool
  | [], _ => true
  | _ :: _, [] => false
  | a :: as, b :: bs => a == b && listIsPrefixOf as bs

/-- `pat` occurs as a contiguous run somewhere in `text`. -/
def listContainsSub (pat : List Char) : List Char → Bool
  | [] => listIsPrefixOf pat []
  | b :: rest => listIsPrefixOf pat (b :: rest) || listContainsSub pat rest

/-- Python's `pat in s` substring test. -/
def strContains (s pat : String) : Bool :=
  listContainsSub pat.data s.data

/-- `TaskScheduler.execute_task` (lines 123-168).  The `time.sleep` calls are
dropped (they do not touch scheduler state) and the random draw embedded in
each result string is abstracted by the argument `r`.  Every branch,
including the default `else`, returns normally, so the result is always
`Except.ok`. -/
def execute_task (name : String) (r : Nat) : Except String String :=
  if strContains name "backup" then
    Except.ok ("Backup completed: " ++ toString r ++ " MB")
  else if strContains name "cleanup" then
    Except.ok ("Cleaned: " ++ toString r ++ " files")
  else if strContains name "sync" then
    Except.ok ("Synced: " ++ toString r ++ " objects")
  else if strContains name "index" then
    Except.ok ("Indexed: " ++ toString r ++ " documents")
  else if strContains name "generate" then
    Except.ok ("Generated: " ++ toString r ++ " reports")
  else if strContains name "send" then
    Except.ok ("Sent: " ++ toString r ++ " notifications")
  else if strContains name "process" then
    Except.ok ("Processed: " ++ toString r ++ " webhooks")
  else if strContains name "archive" then
    Except.ok ("Archived: " ++ toString r ++ " files")
  else if strContains name "validate" then
    Except.ok ("Validated: " ++ toString r ++ " schemas")
  else if strContains name "compress" then
    Except.ok ("Compressed: " ++ toString r ++ " assets")
  else
    Except.ok ("Executed: " ++ name)

/-- The task body of the source scheduler: `execute_task` applied to the
task's `name`, with random draw `r`. -/
def execBuiltin (r : Nat) (t : Task) : Except String String :=
  execute_task t.name r

/-! ### Concrete fixtures used by counterexamples and witnesses -/

/-- A pending task with priority 5 whose handler will always fail
(Scenario B shape): `max_retries = 3`, `retries = 0`, eligible at time 10. -/
def t1 : Task :=
  { task_id := "t1", name := "boom", priority := 5, scheduled_time := 0,
    created_at := 0, started_at := none, completed_at := none,
    status := "pending", result := none, error := none, retries := 0,
    max_retries := 3, worker_id := none }

/-- A scheduler state holding only `t1` on the queue. -/
def st0 : SchedState :=
  { task_queue := [(5, t1)], running_tasks := [], completed_tasks := [],
    failed_tasks := [], task_counter := 1 }

/-- `t1` with original priority 10. -/
def t7 : Task := { t1 with priority := 10 }

/-- A scheduler state holding only `t7` on the queue. -/
def st7 : SchedState := { st0 with task_queue := [(10, t7)] }

/-- A not-yet-eligible task with the smallest priority key
(`scheduled_time = 100`, in the future at time 10). -/
def tA : Task := { t1 with task_id := "tA", priority := 1, scheduled_time := 100 }

/-- An eligible task with a larger priority key. -/
def tB : Task := { t1 with task_id := "tB", priority := 5, scheduled_time := 0 }

/-- A queue where the minimal-key entry `tA` is ineligible while `tB` is
eligible. -/
def st4 : SchedState := { st0 with task_queue := [(1, tA), (5, tB)] }

/-- A task whose name matches none of the substrings `execute_task` tests
for: it is handled by the default branch. -/
def tZ : Task := { t1 with task_id := "tz", name := "zzz" }

/-- A scheduler state holding only `tZ` on the queue. -/
def stZ : SchedState := { st0 with task_queue := [(5, tZ)] }

/-- `t1` after dispatch at time 10 by worker 0, as it sits in the running
dict. -/
def t1Running : Task :=
  { t1 with status := "running", started_at := some 10, worker_id := some 0 }

/-- A task body that raises on every invocation (Scenario B's always-failing
handler). -/
def failExec : Task → Except String String :=
  fun _ => Except.error "boom"


/-! ### Helper lemmas -/

/-- Inserting a key into the running dict makes it present. -/
theorem idInRunning_dictInsert_self (d : List (String × Task)) (k : String)
    (v : Task) : idInRunning (dictInsert d k v) k = true := by
  unfold idInRunning dictInsert
  split
  · rename_i h
    rw [List.any_map, List.any_eq_true] at *
    obtain ⟨e, he, hek⟩ := h
    exact ⟨e, he, by simp [Function.comp, hek]⟩
  · simp

/-- Deleting a key from the running dict removes it. -/
theorem idInRunning_dictErase_self (d : List (String × Task)) (k : String) :
    idInRunning (dictErase d k) k = false := by
  simp [idInRunning, dictErase, List.any_eq_true, List.mem_filter]

/-- Appending `(p, t)` to the queue makes `t.task_id` present. -/
theorem idInQueue_append_self (q : List (Int × Task)) (p : Int) (t : Task) :
    idInQueue (q ++ [(p, t)]) t.task_id = true := by
  simp [idInQueue]

/-- An entry of `dictInsert d k v` is an entry of `d` or the inserted pair. -/
theorem mem_of_mem_dictInsert {d : List (String × Task)} {k : String} {v : Task}
    {e : String × Task} (h : e ∈ dictInsert d k v) : e ∈ d ∨ e = (k, v) := by
  unfold dictInsert at h
  split at h
  · rw [List.mem_map] at h
    obtain ⟨a, ha, hfa⟩ := h
    by_cases hk : (a.1 == k) = true
    · right; rw [if_pos hk] at hfa; exact hfa.symm
    · left; rw [if_neg hk] at hfa; exact hfa ▸ ha
  · rw [List.mem_append] at h
    rcases h with h | h
    · exact Or.inl h
    · simp at h; exact Or.inr h

/-- An entry of `dictErase d k` is an entry of `d`. -/
theorem mem_of_mem_dictErase {d : List (String × Task)} {k : String}
    {e : String × Task} (h : e ∈ dictErase d k) : e ∈ d :=
  (List.mem_filter.1 h).1

/-- The newest element of a bounded deque of positive capacity is the one
just appended, also after mapping. -/
theorem getLast?_map_dequeAppend {α β : Type} (f : α → β) (cap : Nat)
    (d : List α) (x : α) (h : 1 ≤ cap) :
    ((dequeAppend cap d x).map f).getLast? = some (f x) := by
  unfold dequeAppend
  simp only []
  split
  · rename_i hlen
    have hk : (d ++ [x]).length - cap ≤ d.length := by
      simp at hlen ⊢; omega
    rw [List.drop_append_of_le_length hk]
    simp
  · simp

/-- The newest element of a bounded deque of positive capacity is the one
just appended. -/
theorem getLast?_dequeAppend {α : Type} (cap : Nat) (d : List α) (x : α)
    (h : 1 ≤ cap) : (dequeAppend cap d x).getLast? = some x := by
  have := getLast?_map_dequeAppend id cap d x h
  simpa using this

/-! ### Claims -/

/-- C1 counterexample: in the retry path of a worker step from the concrete
state `st0` (one eligible always-failing task `t1`), the snapshot taken right
after the re-`put` of line 110 — trace index 2 — has `t1`'s id both in the
queue and in the running dict, so the mutual-exclusion claim fails on the
code. -/
theorem c1_counterexample :
    idInQueue ((worker_function_trace failExec 0 10 st0).getD 2 st0).task_queue
      "t1" = true ∧
    idInRunning
      ((worker_function_trace failExec 0 10 st0).getD 2 st0).running_tasks
      "t1" = true := by
  constructor <;> rfl

/-- C1 amended: in the retry path the code re-inserts the task into the queue
(line 110) before the `finally` block removes it from the running set
(lines 115-116), so the task id is transiently present in both; at the end of
the iteration it is present in the queue and absent from the running set. -/
theorem c1_retry_requeues_before_release
    (exec : Task → Except String String) (wid : Nat) (now : Int)
    (st : SchedState) (p : Int) (t : Task) (rest : List (Int × Task))
    (e : String)
    (hpop : popMin st.task_queue = some ((p, t), rest))
    (helig : ¬ t.scheduled_time > now)
    (hexec : exec { t with status := "running", started_at := some now, worker_id := some wid } = Except.error e)
    (hret : t.retries + 1 < t.max_retries) :
    idInQueue ((worker_function_trace exec wid now st).getD 2 st).task_queue
      t.task_id = true ∧
    idInRunning
      ((worker_function_trace exec wid now st).getD 2 st).running_tasks
      t.task_id = true ∧
    idInQueue ((worker_function_trace exec wid now st).getD 3 st).task_queue
      t.task_id = true ∧
    idInRunning
      ((worker_function_trace exec wid now st).getD 3 st).running_tasks
      t.task_id = false := by
  unfold worker_function_trace
  rw [hpop]
  simp only [helig, if_false, hexec, if_pos hret, List.getD]
  refine ⟨?_, ?_, ?_, ?_⟩
  · exact idInQueue_append_self _ _ _
  · exact idInRunning_dictInsert_self _ _ _
  · exact idInQueue_append_self _ _ _
  · exact idInRunning_dictErase_self _ _

/-- C1 witness: the amended theorem applied to the concrete state `st0` with
the always-failing handler at time 10. -/
theorem c1_retry_requeues_before_release_witness :
    idInQueue ((worker_function_trace failExec 0 10 st0).getD 2 st0).task_queue
      "t1" = true ∧
    idInRunning
      ((worker_function_trace failExec 0 10 st0).getD 2 st0).running_tasks
      "t1" = true ∧
    idInQueue ((worker_function_trace failExec 0 10 st0).getD 3 st0).task_queue
      "t1" = true ∧
    idInRunning
      ((worker_function_trace failExec 0 10 st0).getD 3 st0).running_tasks
      "t1" = false :=
  c1_retry_requeues_before_release failExec 0 10 st0 5 t1 [] "boom" rfl
    (by decide) rfl (by decide)

/-- C2 counterexample: running the worker to quiescence from `st0` (one task,
`max_retries = 3`, always-failing handler) ends with `retries = 3` and
status `failed`, but only 3 dispatch attempts were made — the attempt count
is incremented before the `retries < max_retries` comparison (line 108), so
the conjunction claimed by Scenario B (which asserts exactly 4 attempts) is
false. -/
theorem c2_counterexample :
    ¬ ((runWorker failExec 0 10 5 st0).1.failed_tasks.map
        (fun d => (d.status, d.retries)) = [("failed", 3)] ∧
       (runWorker failExec 0 10 5 st0).2 = 4) := by
  intro h
  exact absurd h.2 (by decide)

/-- C2 amended: for a submitted task whose handler raises on every invocation
and whose `max_retries` is 3, after processing completes the task has
`retries = 3` and terminal status `failed`, and its handler was dispatched
exactly 3 times (`max_retries` attempts: the retry counter is incremented
before the `retries < max_retries` comparison, so the third failure is
already terminal). -/
theorem c2_always_fail_three_attempts :
    (runWorker failExec 0 10 5 st0).2 = 3 ∧
    (runWorker failExec 0 10 5 st0).1.failed_tasks.map
      (fun d => (d.status, d.retries)) = [("failed", 3)] ∧
    (runWorker failExec 0 10 5 st0).1.task_queue = [] ∧
    (runWorker failExec 0 10 5 st0).1.running_tasks = [] := by
  refine ⟨rfl, rfl, rfl, rfl⟩

/-- C3 counterexample: a task with the unregistered name `"zzz"` (matching no
substring branch) does not fail at all — `execute_task` falls through to the
default `else` branch and returns normally, so after one worker step the task
sits in the completed store with `retries = 0` and the failed store is
empty.  The claim that it terminates as `Failed` is false on the code. -/
theorem c3_counterexample :
    (worker_function_step (execBuiltin 7) 0 10 stZ).failed_tasks = [] ∧
    (worker_function_step (execBuiltin 7) 0 10 stZ).completed_tasks.map
      (fun c => (c.task.id, c.task.status, c.task.retries, c.result)) =
      [("tz", "completed", 0, "Executed: zzz")] := by
  refine ⟨rfl, rfl⟩

/-- C3 amended: a task whose name matches none of the substrings tested by
`execute_task` is handled by the default `else` branch (line 166-168): the
dispatch succeeds with result `"Executed: " ++ name`, the task is recorded in
the completed store with its retry counter unchanged, and the failed store is
untouched — it is never marked `Failed`. -/
theorem c3_default_branch_completes
    (st : SchedState) (wid : Nat) (now : Int) (r : Nat) (p : Int) (t : Task)
    (rest : List (Int × Task))
    (hpop : popMin st.task_queue = some ((p, t), rest))
    (helig : ¬ t.scheduled_time > now)
    (h1 : strContains t.name "backup" = false)
    (h2 : strContains t.name "cleanup" = false)
    (h3 : strContains t.name "sync" = false)
    (h4 : strContains t.name "index" = false)
    (h5 : strContains t.name "generate" = false)
    (h6 : strContains t.name "send" = false)
    (h7 : strContains t.name "process" = false)
    (h8 : strContains t.name "archive" = false)
    (h9 : strContains t.name "validate" = false)
    (h10 : strContains t.name "compress" = false) :
    (worker_function_step (execBuiltin r) wid now st).failed_tasks =
      st.failed_tasks ∧
    (worker_function_step (execBuiltin r) wid now st).task_queue = rest ∧
    (worker_function_step (execBuiltin r) wid now st).completed_tasks.getLast? =
      some { task := { id := t.task_id, name := t.name, priority := t.priority, scheduled := t.scheduled_time, status := "completed", retries := t.retries, duration := some (now - now) }, result := "Executed: " ++ t.name, worker := wid } := by
  have hexec : execBuiltin r { t with status := "running", started_at := some now, worker_id := some wid } = Except.ok ("Executed: " ++ t.name) := by
    simp [execBuiltin, execute_task, h1, h2, h3, h4, h5, h6, h7, h8, h9, h10]
  unfold worker_function_step worker_function_trace
  rw [hpop]
  simp only [helig, if_false, hexec, List.getLastD]
  refine ⟨rfl, rfl, ?_⟩
  exact getLast?_dequeAppend 1000 _ _ (by norm_num)

/-- C3 witness: the amended theorem applied to the concrete state `stZ`
holding the task named `"zzz"`. -/
theorem c3_default_branch_completes_witness :
    (worker_function_step (execBuiltin 7) 0 10 stZ).failed_tasks =
      stZ.failed_tasks ∧
    (worker_function_step (execBuiltin 7) 0 10 stZ).task_queue = [] ∧
    (worker_function_step (execBuiltin 7) 0 10 stZ).completed_tasks.getLast? =
      some { task := { id := tZ.task_id, name := tZ.name, priority := tZ.priority, scheduled := tZ.scheduled_time, status := "completed", retries := tZ.retries, duration := some (10 - 10) }, result := "Executed: " ++ tZ.name, worker := 0 } :=
  c3_default_branch_completes stZ 0 10 7 5 tZ [] rfl (by decide) (by decide)
    (by decide) (by decide) (by decide) (by decide) (by decide) (by decide)
    (by decide) (by decide) (by decide)

/-- C4 counterexample: in `st4` the eligible task `tB` is on the queue at
time 10, yet the worker step dispatches nothing: the minimal-key entry `tA`
is not yet eligible, and the step pops it, re-`put`s it and sleeps
(lines 78-83) without dispatching any eligible task.  The claim that a
dequeue step dispatches some eligible task whenever one exists is false on
the code. -/
theorem c4_counterexample :
    st4.task_queue.any (fun e => decide (e.2.scheduled_time ≤ 10)) = true ∧
    worker_step_dispatched 10 st4 = false := by
  refine ⟨rfl, rfl⟩

/-- C4 amended: a worker step dispatches a task precisely when the
minimal-priority-key entry of the queue is itself eligible; when that entry
is not yet eligible the step re-inserts it and dispatches nothing in that
pass, so a not-yet-eligible task with a smaller priority value delays every
eligible task until its own scheduled time arrives. -/
theorem c4_dispatch_iff_min_eligible (now : Int) (st : SchedState) (p : Int)
    (t : Task) (rest : List (Int × Task))
    (hpop : popMin st.task_queue = some ((p, t), rest)) :
    ((worker_step_dispatched now st = true) ↔ t.scheduled_time ≤ now) ∧
    (∀ (exec : Task → Except String String) (wid : Nat),
      t.scheduled_time > now →
      (worker_function_step exec wid now st).task_queue = rest ++ [(p, t)]) := by
  constructor
  · unfold worker_step_dispatched
    rw [hpop]
    simp [not_lt]
  · intro exec wid hgt
    unfold worker_function_step worker_function_trace
    rw [hpop]
    simp only [hgt, if_true, List.getLastD]
    rfl

/-- C4 witness: the amended theorem applied to `st4`, where the ineligible
minimal-key task `tA` is re-inserted and nothing is dispatched even though
`tB` is eligible. -/
theorem c4_dispatch_iff_min_eligible_witness :
    ((worker_step_dispatched 10 st4 = true) ↔ tA.scheduled_time ≤ 10) ∧
    (worker_function_step failExec 0 10 st4).task_queue =
      [(5, tB)] ++ [(1, tA)] :=
  ⟨(c4_dispatch_iff_min_eligible 10 st4 1 tA [(5, tB)] rfl).1,
   (c4_dispatch_iff_min_eligible 10 st4 1 tA [(5, tB)] rfl).2 failExec 0
     (by decide)⟩


/-- C5 counterexample: after one worker step from `st0` (eligible task,
always-failing handler, retries left), the requeued task waiting in the
queue has status `"failed"`, not `"pending"` — the retry path never resets
`task.status` (line 104 sets it to `'failed'` and nothing changes it before
the re-`put` on line 110).  The claimed `Running → Failed-Retryable →
Pending` transition is false on the code. -/
theorem c5_counterexample :
    (worker_function_step failExec 0 10 st0).task_queue.map
      (fun q => q.2.status) = ["failed"] ∧
    ¬ (worker_function_step failExec 0 10 st0).task_queue.map
        (fun q => q.2.status) = ["pending"] := by
  refine ⟨rfl, by decide⟩

/-- C5 amended: when an attempt fails with `retries < max_retries` after the
increment, the task is requeued still carrying status `"failed"` (together
with the recorded error, the incremented retry counter and the decremented
priority); its status only becomes `"running"` again when a worker next
dispatches it — it never passes through `"pending"`. -/
theorem c5_requeued_task_keeps_failed_status
    (exec : Task → Except String String) (wid : Nat) (now : Int)
    (st : SchedState) (p : Int) (t : Task) (rest : List (Int × Task))
    (e : String)
    (hpop : popMin st.task_queue = some ((p, t), rest))
    (helig : ¬ t.scheduled_time > now)
    (hexec : exec { t with status := "running", started_at := some now, worker_id := some wid } = Except.error e)
    (hret : t.retries + 1 < t.max_retries) :
    (worker_function_step exec wid now st).task_queue =
      rest ++ [(p, { t with status := "failed", started_at := some now, worker_id := some wid, error := some e, retries := t.retries + 1, priority := max 1 (t.priority - 1) })] := by
  unfold worker_function_step worker_function_trace
  rw [hpop]
  simp only [helig, if_false, hexec, if_pos hret, List.getLastD]
  rfl

/-- C5 witness: the amended theorem applied to the concrete state `st0` with
the always-failing handler at time 10. -/
theorem c5_requeued_task_keeps_failed_status_witness :
    (worker_function_step failExec 0 10 st0).task_queue =
      [] ++ [(5, { t1 with status := "failed", started_at := some 10, worker_id := some 0, error := some "boom", retries := t1.retries + 1, priority := max 1 (t1.priority - 1) })] :=
  c5_requeued_task_keeps_failed_status failExec 0 10 st0 5 t1 [] "boom" rfl
    (by decide) rfl (by decide)

/-- C6 counterexample: after the retry path runs from `st0` (dequeue key 5,
task priority decremented to 4), the queue's single entry has priority key 5
but task priority 4 — the re-insertion key is not the decremented priority,
so the claim is false on the code. -/
theorem c6_counterexample :
    (worker_function_step failExec 0 10 st0).task_queue.length = 1 ∧
    ¬ (worker_function_step failExec 0 10 st0).task_queue.all
        (fun q => q.1 == q.2.priority) = true := by
  refine ⟨rfl, by decide⟩

/-- C6 amended: the retry path re-inserts the failed task under the original
dequeue priority key — line 110 uses the local `priority` popped on line 78 —
while the task's own `priority` field has been decremented to
`max(1, priority - 1)`, so the queue key and the task's current priority
disagree whenever the decrement changed the value. -/
theorem c6_requeue_key_is_dequeue_priority
    (exec : Task → Except String String) (wid : Nat) (now : Int)
    (st : SchedState) (p : Int) (t : Task) (rest : List (Int × Task))
    (e : String)
    (hpop : popMin st.task_queue = some ((p, t), rest))
    (helig : ¬ t.scheduled_time > now)
    (hexec : exec { t with status := "running", started_at := some now, worker_id := some wid } = Except.error e)
    (hret : t.retries + 1 < t.max_retries) :
    (worker_function_step exec wid now st).task_queue.map Prod.fst =
      rest.map Prod.fst ++ [p] ∧
    (worker_function_step exec wid now st).task_queue.map
      (fun q => q.2.priority) =
      rest.map (fun q => q.2.priority) ++ [max 1 (t.priority - 1)] := by
  have hq : (worker_function_step exec wid now st).task_queue =
      rest ++ [(p, { t with status := "failed", started_at := some now, worker_id := some wid, error := some e, retries := t.retries + 1, priority := max 1 (t.priority - 1) })] := by
    unfold worker_function_step worker_function_trace
    rw [hpop]
    simp only [helig, if_false, hexec, if_pos hret, List.getLastD]
    rfl
  rw [hq]
  simp only [List.map_append]
  constructor <;> rfl

/-- C6 witness: the amended theorem applied to the concrete state `st0`: the
entry is re-inserted under key 5 while the task's priority is 4. -/
theorem c6_requeue_key_is_dequeue_priority_witness :
    (worker_function_step failExec 0 10 st0).task_queue.map Prod.fst =
      List.map Prod.fst ([] : List (Int × Task)) ++ [5] ∧
    (worker_function_step failExec 0 10 st0).task_queue.map
      (fun q => q.2.priority) =
      List.map (fun q => q.2.priority) ([] : List (Int × Task)) ++
        [max 1 (t1.priority - 1)] :=
  c6_requeue_key_is_dequeue_priority failExec 0 10 st0 5 t1 [] "boom" rfl
    (by decide) rfl (by decide)


/-- C7 counterexample: a task with original priority 10 and an always-failing
handler (`st7`).  After processing, the failed store records `retries = 3`
but priority 8, whereas `max(1, 10 - 3) = 7`: the final, terminal attempt
increments `retries` without decrementing `priority` (the decrement on
line 109 sits inside the requeue branch), so the claimed invariant
`priority = max(1, original - retries)` fails at the terminal state. -/
theorem c7_counterexample :
    (runWorker failExec 0 10 5 st7).1.failed_tasks.map
      (fun d => (d.priority, d.retries)) = [((8 : Int), 3)] ∧
    ¬ ((8 : Int) = max 1 (10 - 3)) := by
  refine ⟨rfl, by decide⟩

/-- C7 amended: for a task with original priority `p0 ≥ 1` whose priority
currently satisfies `priority = max(1, p0 - retries)`, a failed attempt
preserves the relation on the requeue branch — the requeued task has
`priority = max(1, p0 - retries)` for the incremented `retries`, a value
never above the previous priority, never above `p0` and never below 1 —
while on the terminal branch the recorded priority is `max(1, p0 - retries)`
for the old `retries` even though the stored retry count is `retries + 1`:
the final increment is not matched by a decrement. -/
theorem c7_priority_floor
    (exec : Task → Except String String) (wid : Nat) (now : Int)
    (st : SchedState) (p : Int) (t : Task) (rest : List (Int × Task))
    (e : String) (p0 : Int)
    (hpop : popMin st.task_queue = some ((p, t), rest))
    (helig : ¬ t.scheduled_time > now)
    (hexec : exec { t with status := "running", started_at := some now, worker_id := some wid } = Except.error e)
    (hpri : t.priority = max 1 (p0 - (t.retries : Int)))
    (hp0 : 1 ≤ p0) :
    (t.retries + 1 < t.max_retries →
      (worker_function_step exec wid now st).task_queue.map
        (fun q => q.2.priority) =
        rest.map (fun q => q.2.priority) ++
          [max 1 (p0 - ((t.retries : Int) + 1))] ∧
      max 1 (p0 - ((t.retries : Int) + 1)) ≤ t.priority ∧
      1 ≤ max 1 (p0 - ((t.retries : Int) + 1)) ∧
      max 1 (p0 - ((t.retries : Int) + 1)) ≤ p0) ∧
    (¬ t.retries + 1 < t.max_retries →
      ((worker_function_step exec wid now st).failed_tasks.map
        (fun d => (d.priority, d.retries))).getLast? =
        some (max 1 (p0 - (t.retries : Int)), t.retries + 1)) := by
  constructor
  · intro hret
    have hq : (worker_function_step exec wid now st).task_queue =
        rest ++ [(p, { t with status := "failed", started_at := some now, worker_id := some wid, error := some e, retries := t.retries + 1, priority := max 1 (t.priority - 1) })] := by
      unfold worker_function_step worker_function_trace
      rw [hpop]
      simp only [helig, if_false, hexec, if_pos hret, List.getLastD]
      rfl
    have harith : max 1 (t.priority - 1) =
        max 1 (p0 - ((t.retries : Int) + 1)) := by
      rw [hpri]; omega
    refine ⟨?_, ?_, ?_, ?_⟩
    · rw [hq]
      simp only [List.map_append]
      rw [← harith]
      rfl
    · rw [hpri]; omega
    · omega
    · omega
  · intro hret
    have hf : (worker_function_step exec wid now st).failed_tasks =
        dequeAppend 500 st.failed_tasks ({ t with status := "failed", started_at := some now, worker_id := some wid, error := some e, retries := t.retries + 1 } : Task).to_dict := by
      unfold worker_function_step worker_function_trace
      rw [hpop]
      simp only [helig, if_false, hexec, if_neg hret, List.getLastD]
      rfl
    rw [hf, ← hpri]
    exact getLast?_map_dequeAppend _ 500 _ _ (by norm_num)

/-- C7 witness: the amended theorem's requeue branch applied to the concrete
state `st0` (original priority 5, first failure): the requeued priority is
`max(1, 5 - 1) = 4`, within all the stated bounds. -/
theorem c7_priority_floor_witness :
    (worker_function_step failExec 0 10 st0).task_queue.map
      (fun q => q.2.priority) =
      List.map (fun q => q.2.priority) ([] : List (Int × Task)) ++
        [max 1 (5 - ((t1.retries : Int) + 1))] ∧
    max 1 (5 - ((t1.retries : Int) + 1)) ≤ t1.priority ∧
    1 ≤ max 1 (5 - ((t1.retries : Int) + 1)) ∧
    max 1 (5 - ((t1.retries : Int) + 1)) ≤ 5 :=
  (c7_priority_floor failExec 0 10 st0 5 t1 [] "boom" 5 rfl (by decide) rfl
    (by decide) (by decide)).1 (by decide)


/-- C8 counterexample: calling `add_task` with non-positive priority 0 and
negative delay -5 does not fail — it silently enqueues the task (under key 0,
with `scheduled_time = 100 + (-5) = 95` already in the past) and returns a
task id, so the claim that such calls fail immediately is false on the
code. -/
theorem c8_counterexample :
    (add_task st0 100 "x" 0 (-5)).2.task_queue.length =
      st0.task_queue.length + 1 ∧
    ((add_task st0 100 "x" 0 (-5)).2.task_queue.map Prod.fst).getLast? =
      some 0 ∧
    ((add_task st0 100 "x" 0 (-5)).2.task_queue.map
      (fun q => q.2.scheduled_time)).getLast? = some 95 ∧
    (add_task st0 100 "x" 0 (-5)).1 = "task_2_100" := by
  refine ⟨rfl, rfl, rfl, rfl⟩

/-- C8 amended: `add_task` performs no validation whatsoever: for every
priority and delay — including non-positive priorities and negative delays —
it increments the counter, returns the generated id, and appends
`(priority, task)` to the queue with `scheduled_time = now + delay` and the
`Task.__init__` defaults; nothing is rejected or clamped. -/
theorem c8_add_task_accepts_anything (st : SchedState) (now : Int)
    (name : String) (p : Int) (d : Int) :
    (add_task st now name p d).2.task_queue =
      st.task_queue ++ [(p, { task_id := "task_" ++ toString (st.task_counter + 1) ++ "_" ++ toString now, name := name, priority := p, scheduled_time := now + d, created_at := now, started_at := none, completed_at := none, status := "pending", result := none, error := none, retries := 0, max_retries := 3, worker_id := none })] ∧
    (add_task st now name p d).1 =
      "task_" ++ toString (st.task_counter + 1) ++ "_" ++ toString now ∧
    (add_task st now name p d).2.task_counter = st.task_counter + 1 ∧
    (add_task st now name p d).2.running_tasks = st.running_tasks ∧
    (add_task st now name p d).2.completed_tasks = st.completed_tasks ∧
    (add_task st now name p d).2.failed_tasks = st.failed_tasks := by
  refine ⟨rfl, rfl, rfl, rfl, rfl, rfl⟩


/-- C9: no dispatch before the scheduled time.  Any task that enters the
running set during a worker iteration taken at time `now` — i.e. any
`running_tasks` entry of a trace snapshot that was not already present
before the iteration — is the dispatched task: its `scheduled_time` is
`≤ now` (the gate on line 80 re-inserts anything still in the future), it
was stamped `started_at = now` and marked `running`. -/
theorem c9_no_dispatch_before_scheduled_time
    (exec : Task → Except String String) (wid : Nat) (now : Int)
    (st s : SchedState)
    (hs : s ∈ worker_function_trace exec wid now st)
    (k : String) (t' : Task)
    (hmem : (k, t') ∈ s.running_tasks)
    (hnew : (k, t') ∉ st.running_tasks) :
    t'.scheduled_time ≤ now ∧ t'.started_at = some now ∧
      t'.status = "running" := by
  unfold worker_function_trace at hs
  cases hpop : popMin st.task_queue with
  | none => rw [hpop] at hs; simp at hs
  | some pr =>
    obtain ⟨⟨p, t⟩, rest⟩ := pr
    rw [hpop] at hs
    dsimp only [] at hs
    by_cases helig : t.scheduled_time > now
    · rw [if_pos helig] at hs
      simp at hs
      rcases hs with h | h <;> subst h <;> exact absurd hmem hnew
    · rw [if_neg helig] at hs
      have hle : t.scheduled_time ≤ now := by omega
      cases hex : exec { t with status := "running", started_at := some now, worker_id := some wid } with
      | ok res =>
        rw [hex] at hs
        dsimp only [] at hs
        simp at hs
        rcases hs with h | h | h | h <;> subst h
        · exact absurd hmem hnew
        · rcases mem_of_mem_dictInsert hmem with h | h
          · exact absurd h hnew
          · injection h with hk ht; subst ht; exact ⟨hle, rfl, rfl⟩
        · rcases mem_of_mem_dictInsert hmem with h | h
          · exact absurd h hnew
          · injection h with hk ht; subst ht; exact ⟨hle, rfl, rfl⟩
        · rcases mem_of_mem_dictInsert (mem_of_mem_dictErase hmem) with h | h
          · exact absurd h hnew
          · injection h with hk ht; subst ht; exact ⟨hle, rfl, rfl⟩
      | error e2 =>
        rw [hex] at hs
        dsimp only [] at hs
        by_cases hret : t.retries + 1 < t.max_retries
        · rw [if_pos hret] at hs
          simp at hs
          rcases hs with h | h | h | h <;> subst h
          · exact absurd hmem hnew
          · rcases mem_of_mem_dictInsert hmem with h | h
            · exact absurd h hnew
            · injection h with hk ht; subst ht; exact ⟨hle, rfl, rfl⟩
          · rcases mem_of_mem_dictInsert hmem with h | h
            · exact absurd h hnew
            · injection h with hk ht; subst ht; exact ⟨hle, rfl, rfl⟩
          · rcases mem_of_mem_dictInsert (mem_of_mem_dictErase hmem) with h | h
            · exact absurd h hnew
            · injection h with hk ht; subst ht; exact ⟨hle, rfl, rfl⟩
        · rw [if_neg hret] at hs
          simp at hs
          rcases hs with h | h | h | h <;> subst h
          · exact absurd hmem hnew
          · rcases mem_of_mem_dictInsert hmem with h | h
            · exact absurd h hnew
            · injection h with hk ht; subst ht; exact ⟨hle, rfl, rfl⟩
          · rcases mem_of_mem_dictInsert hmem with h | h
            · exact absurd h hnew
            · injection h with hk ht; subst ht; exact ⟨hle, rfl, rfl⟩
          · rcases mem_of_mem_dictInsert (mem_of_mem_dictErase hmem) with h | h
            · exact absurd h hnew
            · injection h with hk ht; subst ht; exact ⟨hle, rfl, rfl⟩

/-- C9 witness: applied to the snapshot right after dispatch in the concrete
state `st0` at time 10, whose fresh running entry is `t1Running`. -/
theorem c9_no_dispatch_before_scheduled_time_witness :
    t1Running.scheduled_time ≤ 10 ∧ t1Running.started_at = some 10 ∧
      t1Running.status = "running" :=
  c9_no_dispatch_before_scheduled_time failExec 0 10 st0
    ((worker_function_trace failExec 0 10 st0).getD 1 st0) (by decide)
    "t1" t1Running (by decide) (by decide)


/-- `execute_task` returns normally on every input: each of the eleven
branches produces an `Except.ok`. -/
theorem execute_task_isOk (name : String) (r : Nat) :
    (execute_task name r).isOk = true := by
  unfold execute_task
  repeat' split
  all_goals rfl

/-- C10: every branch of `execute_task`, including the default one, returns
normally (`Except.ok`), so with the built-in bodies a dispatched task always
takes the success path of `worker_function`: the failed store is untouched,
the task leaves the queue, and its completion record is the newest entry of
the completed store. -/
theorem c10_builtin_never_fails :
    (∀ (name : String) (r : Nat), (execute_task name r).isOk = true) ∧
    (∀ (st : SchedState) (wid : Nat) (now : Int) (r : Nat) (p : Int)
       (t : Task) (rest : List (Int × Task)),
      popMin st.task_queue = some ((p, t), rest) →
      ¬ t.scheduled_time > now →
      (worker_function_step (execBuiltin r) wid now st).failed_tasks =
        st.failed_tasks ∧
      (worker_function_step (execBuiltin r) wid now st).task_queue = rest ∧
      ((worker_function_step (execBuiltin r) wid now st).completed_tasks.map
        (fun c => c.task.id)).getLast? = some t.task_id) := by
  refine ⟨execute_task_isOk, ?_⟩
  intro st wid now r p t rest hpop helig
  cases hex0 : execute_task t.name r with
  | error e =>
    have h := execute_task_isOk t.name r
    rw [hex0] at h
    exact Bool.noConfusion h
  | ok res =>
    have hex : execBuiltin r { t with status := "running", started_at := some now, worker_id := some wid } = Except.ok res := by
      unfold execBuiltin
      exact hex0
    unfold worker_function_step worker_function_trace
    rw [hpop]
    simp only [helig, if_false, hex, List.getLastD]
    refine ⟨rfl, rfl, ?_⟩
    exact getLast?_map_dequeAppend _ 1000 _ _ (by norm_num)

/-- C10 witness: the second conjunct of the theorem applied to the concrete
state `stZ`, together with the first conjunct at the name `"zzz"`. -/
theorem c10_builtin_never_fails_witness :
    (execute_task "zzz" 7).isOk = true ∧
    (worker_function_step (execBuiltin 7) 0 10 stZ).failed_tasks =
      stZ.failed_tasks ∧
    (worker_function_step (execBuiltin 7) 0 10 stZ).task_queue = [] ∧
    ((worker_function_step (execBuiltin 7) 0 10 stZ).completed_tasks.map
      (fun c => c.task.id)).getLast? = some "tz" :=
  ⟨c10_builtin_never_fails.1 "zzz" 7,
   (c10_builtin_never_fails.2 stZ 0 10 7 5 tZ [] rfl (by decide)).1,
   (c10_builtin_never_fails.2 stZ 0 10 7 5 tZ [] rfl (by decide)).2.1,
   (c10_builtin_never_fails.2 stZ 0 10 7 5 tZ [] rfl (by decide)).2.2⟩


end CorsConfig
